import Mathlib

/-!
Verification of the webgwas-backend request-processing pipeline.

This file gives a shallow embedding of `src/models.rs` and `src/worker.rs`
into Lean 4 and proves properties of the embedded definitions.

Modelling conventions:
* Rust `f32` values are modelled as rationals (`ℚ`); the claims checked here
  are structural (which vector is produced, which elements are kept), not
  about floating-point rounding.
* `faer::Col` is a `List ℚ`; `faer::Mat` is a row-major `List (List ℚ)`.
* Rust `Uuid` request ids are modelled as `Nat`.
* Fallible Rust code (`anyhow::Result`) is modelled as `Except String`.
* Functions of this repository that are called from `src/worker.rs` but whose
  definitions are not under `src/` (the `igwas`, `phenotype_definitions`,
  `regression` and `utils` modules, and library file/zip/S3 I/O) are modelled
  from the specification; each such definition carries a doc comment starting
  with `Modelled from the spec:`.
-/

set_option autoImplicit false

deriving instance DecidableEq for Except

namespace WebGWAS



/-- Embeds `enum NodeType` from `src/models.rs` (lines 31-38). -/
inductive NodeType where
  | Bool
  | Real
  | Any
  deriving DecidableEq

/-- Embeds `struct Feature` from `src/models.rs` (lines 73-81). -/
structure Feature where
  id : Int
  code : String
  name : String
  node_type : NodeType
  sample_size : Int
  cohort_id : Int
  deriving DecidableEq

/-- Embeds `struct Operator` from `src/models.rs` (lines 190-197). -/
structure Operator where
  id : Int
  name : String
  arity : Int
  input_type : NodeType
  output_type : NodeType
  deriving DecidableEq

/-- Embeds `struct Constant` from `src/models.rs` (lines 199-203). -/
structure Constant where
  value : ℚ
  node_type : NodeType
  deriving DecidableEq

/-- Embeds `enum Operators` from `src/models.rs` (lines 275-290). -/
inductive Operators where
  | Root
  | Add
  | Sub
  | Mul
  | Div
  | And
  | Or
  | Not
  | Gt
  | Ge
  | Lt
  | Le
  | Eq
  deriving DecidableEq

/-- Embeds `impl FromStr for Operators` from `src/models.rs` (lines 292-313):
the input is uppercased, then matched against the thirteen tag spellings. -/
def Operators.from_str (s : String) : Except String Operators :=
  match s.toUpper with
  | "ROOT" => .ok .Root
  | "ADD" => .ok .Add
  | "SUB" => .ok .Sub
  | "MUL" => .ok .Mul
  | "DIV" => .ok .Div
  | "AND" => .ok .And
  | "OR" => .ok .Or
  | "NOT" => .ok .Not
  | "GT" => .ok .Gt
  | "GE" => .ok .Ge
  | "LT" => .ok .Lt
  | "LE" => .ok .Le
  | "EQ" => .ok .Eq
  | _ => .error ("Invalid operator: " ++ s)

/-- Embeds `Operators::value` from `src/models.rs` (lines 315-411): the fixed
operator table assigning id, name, arity, input type and output type. -/
def Operators.value : Operators → Operator
  | .Root => { id := 0, name := "root", arity := 1,
               input_type := .Any, output_type := .Any }
  | .Add => { id := 1, name := "add", arity := 2,
              input_type := .Any, output_type := .Real }
  | .Sub => { id := 2, name := "sub", arity := 2,
              input_type := .Any, output_type := .Real }
  | .Mul => { id := 3, name := "mul", arity := 2,
              input_type := .Any, output_type := .Real }
  | .Div => { id := 4, name := "div", arity := 2,
              input_type := .Any, output_type := .Real }
  | .And => { id := 5, name := "and", arity := 2,
              input_type := .Bool, output_type := .Bool }
  | .Or => { id := 6, name := "or", arity := 2,
             input_type := .Bool, output_type := .Bool }
  | .Not => { id := 7, name := "not", arity := 1,
              input_type := .Bool, output_type := .Bool }
  | .Gt => { id := 8, name := "gt", arity := 2,
             input_type := .Any, output_type := .Bool }
  | .Ge => { id := 9, name := "ge", arity := 2,
             input_type := .Any, output_type := .Bool }
  | .Lt => { id := 10, name := "lt", arity := 2,
             input_type := .Any, output_type := .Bool }
  | .Le => { id := 11, name := "le", arity := 2,
             input_type := .Any, output_type := .Bool }
  | .Eq => { id := 12, name := "eq", arity := 2,
             input_type := .Any, output_type := .Bool }

/-- Embeds `enum Node` from `src/models.rs` (lines 205-210). -/
inductive Node where
  | Feature : Feature → Node
  | Operator : Operators → Node
  | Constant : Constant → Node
  deriving DecidableEq

/-- Embeds `enum ParsingNode` from `src/models.rs` (lines 413-418). -/
inductive ParsingNode where
  | Feature : String → ParsingNode
  | Operator : Operators → ParsingNode
  | Constant : ℚ → ParsingNode
  deriving DecidableEq

/-- Embeds `impl From<ParsingNode> for Node` from `src/models.rs`
(lines 420-438). -/
def Node.from_parsing_node : ParsingNode → Node
  | ParsingNode.Feature field_code =>
      Node.Feature { id := 0, code := field_code, name := "",
                     node_type := NodeType.Any, sample_size := 0,
                     cohort_id := 0 }
  | ParsingNode.Operator operator => Node.Operator operator
  | ParsingNode.Constant value =>
      Node.Constant { value := value, node_type := NodeType.Real }

/-- Embeds `struct Cohort` from `src/models.rs` (lines 21-27). -/
structure Cohort where
  id : Option Int
  name : String
  normalized_name : String
  num_covar : Option Int
  deriving DecidableEq

/-- Dot product of two rational vectors, truncating at the shorter length. -/
def dotProd (xs ys : List ℚ) : ℚ := (List.zipWith (fun a b => a * b) xs ys).sum

/-- Matrix-vector product for a row-major matrix. -/
def matVec (m : List (List ℚ)) (v : List ℚ) : List ℚ :=
  m.map (fun row => dotProd row v)

/-- Transpose of a row-major matrix; column count is taken from the first
row, rows shorter than that are padded with 0. -/
def transposeMat (m : List (List ℚ)) : List (List ℚ) :=
  match m with
  | [] => []
  | r :: _ => (List.range r.length).map (fun j => m.map (fun row => row.getD j 0))

/-- Embeds the matrix handling of `CohortData::load` from `src/models.rs`
(lines 236-245): the on-disk N x (F+1) left-inverse matrix is transposed once
at load time to shape (F+1) x N. Parquet file I/O is elided; the function
takes the decoded on-disk matrix. -/
def CohortData.load_left_inverse (left_inverse_df : List (List ℚ)) :
    List (List ℚ) :=
  transposeMat left_inverse_df

/-- Embeds `struct CohortData` from `src/models.rs` (lines 217-223), with the
`features` matrix and `feature_names` fields that `src/worker.rs` reads
(`cohort_info.features`, `cohort_info.feature_names`); the feature matrix is
row-major with rows = samples and columns ordered as `feature_names`. The
`gwas_df` summary-statistics table is opaque to every claim proved here and
is modelled by the number of its rows. -/
structure CohortData where
  cohort : Cohort
  features : List (List ℚ)
  feature_names : List String
  left_inverse : List (List ℚ)
  gwas_rows : Nat
  covariance_matrix : List (List ℚ)
  deriving DecidableEq

/-- Modelled from the spec: `Projection` (from the `igwas` module, not under
`src/`) is a pair of a feature-id sequence and a coefficient vector with
equal lengths (spec section 3). -/
structure Projection where
  feature_id : List String
  feature_coefficient : List ℚ
  deriving DecidableEq

/-- Modelled from the spec: `Projection::new` (from the `igwas` module, not
under `src/`) pairs the feature ids with the coefficients, requiring equal
lengths (spec section 3: a pair with the feature-id count equal to the
coefficient count). -/
def Projection.new (names : List String) (beta : List ℚ) :
    Except String Projection :=
  if names.length = beta.length then
    .ok { feature_id := names, feature_coefficient := beta }
  else
    .error "Feature names and beta must have the same length"

/-- Modelled from the spec: `Projection::standardize` (from the `igwas`
module, not under `src/`): after standardization `feature_id` equals the
cohort's `feature_names` in order and the coefficient vector is padded with
zeros for missing features (spec sections 3 and 4.3). -/
def Projection.standardize (p : Projection) (feature_names : List String) :
    Projection :=
  { feature_id := feature_names,
    feature_coefficient := feature_names.map (fun name =>
      match p.feature_id.indexOf? name with
      | some i => p.feature_coefficient.getD i 0
      | none => 0) }

/-- Modelled from the spec: elementwise application of one operator to the
evaluation stack (spec section 4.2). The stack head is the most recently
pushed vector; a binary operator pops the right operand first. And and Or
clamp inputs to `value` distinct from 0; Not is `1 - x`; comparisons produce
0 or 1; Root is the identity on the top of the stack. -/
def opApply (op : Operators) (stack : List (List ℚ)) :
    Except String (List (List ℚ)) :=
  match op with
  | .Root =>
    match stack with
    | x :: rest => .ok (x :: rest)
    | [] => .error "Stack underflow"
  | .Not =>
    match stack with
    | x :: rest => .ok (x.map (fun v => 1 - v) :: rest)
    | [] => .error "Stack underflow"
  | .Add =>
    match stack with
    | b :: a :: rest => .ok (List.zipWith (fun x y => x + y) a b :: rest)
    | _ => .error "Stack underflow"
  | .Sub =>
    match stack with
    | b :: a :: rest => .ok (List.zipWith (fun x y => x - y) a b :: rest)
    | _ => .error "Stack underflow"
  | .Mul =>
    match stack with
    | b :: a :: rest => .ok (List.zipWith (fun x y => x * y) a b :: rest)
    | _ => .error "Stack underflow"
  | .Div =>
    match stack with
    | b :: a :: rest => .ok (List.zipWith (fun x y => x / y) a b :: rest)
    | _ => .error "Stack underflow"
  | .And =>
    match stack with
    | b :: a :: rest =>
      .ok (List.zipWith (fun x y => if x ≠ 0 ∧ y ≠ 0 then 1 else 0) a b :: rest)
    | _ => .error "Stack underflow"
  | .Or =>
    match stack with
    | b :: a :: rest =>
      .ok (List.zipWith (fun x y => if x ≠ 0 ∨ y ≠ 0 then 1 else 0) a b :: rest)
    | _ => .error "Stack underflow"
  | .Gt =>
    match stack with
    | b :: a :: rest =>
      .ok (List.zipWith (fun x y => if x > y then 1 else 0) a b :: rest)
    | _ => .error "Stack underflow"
  | .Ge =>
    match stack with
    | b :: a :: rest =>
      .ok (List.zipWith (fun x y => if x ≥ y then 1 else 0) a b :: rest)
    | _ => .error "Stack underflow"
  | .Lt =>
    match stack with
    | b :: a :: rest =>
      .ok (List.zipWith (fun x y => if x < y then 1 else 0) a b :: rest)
    | _ => .error "Stack underflow"
  | .Le =>
    match stack with
    | b :: a :: rest =>
      .ok (List.zipWith (fun x y => if x ≤ y then 1 else 0) a b :: rest)
    | _ => .error "Stack underflow"
  | .Eq =>
    match stack with
    | b :: a :: rest =>
      .ok (List.zipWith (fun x y => if x = y then 1 else 0) a b :: rest)
    | _ => .error "Stack underflow"

/-- Modelled from the spec: `apply_phenotype_definition` (from the
`phenotype_definitions` module, not under `src/`) evaluates the
reverse-Polish node list over the cohort feature matrix with a stack of
column vectors (spec section 4.2): a Feature pushes its column, a Constant
pushes a broadcast vector, an operator pops its operands and pushes the
elementwise result; at the end the stack must hold exactly one vector. -/
def apply_phenotype_definition (nodes : List Node)
    (feature_names : List String) (features : List (List ℚ)) :
    Except String (List ℚ) :=
  let n := features.length
  let final := nodes.foldlM (fun stack node =>
    match node with
    | Node.Feature f =>
      match feature_names.indexOf? f.code with
      | some j =>
        Except.ok ((features.map (fun row : List ℚ => row.getD j 0)) :: stack)
      | none => Except.error ("Unknown feature " ++ f.code)
    | Node.Constant c => Except.ok (List.replicate n c.value :: stack)
    | Node.Operator op => opApply op stack) ([] : List (List ℚ))
  match final with
  | .ok [y] => .ok y
  | .ok _ => .error "Invalid stack at end of evaluation"
  | .error e => .error e

/-- Modelled from the spec: `regress_left_inverse_vec` (from the `regression`
module, not under `src/`) solves the least squares fit by a single
matrix-vector product of the cached left inverse with the phenotype vector
(spec section 4.3: beta = L * y). -/
def regress_left_inverse_vec (phenotype_mat : List ℚ)
    (left_inverse : List (List ℚ)) : List ℚ :=
  matVec left_inverse phenotype_mat

/-- Embeds `compute_projection` from `src/worker.rs` (lines 126-168). A
single-node Feature list takes the fast path: beta = [1] over the single
feature code, standardized to the cohort's feature names, with a membership
guard. A single-node Operator or Constant is rejected. Any other list is
evaluated and regressed against the left inverse; the last element of beta
(the intercept) is dropped by `truncate`. -/
def compute_projection (phenotype_definition : List Node)
    (cohort_info : CohortData) : Except String Projection :=
  match phenotype_definition with
  | [Node.Feature feature] =>
    let beta : List ℚ := [1]
    let phenotype_names := [feature.code]
    match Projection.new phenotype_names beta with
    | .error e => .error e
    | .ok projection =>
      let projection := projection.standardize cohort_info.feature_names
      if feature.code ∈ projection.feature_id then
        .ok projection
      else
        .error ("Feature " ++ feature.code ++ " not found after standardization")
  | [Node.Operator operator] =>
    .error ("Operator " ++ (operator.value).name ++ " is not supported")
  | [Node.Constant constant] =>
    .error ("Constant " ++ toString constant.value ++ " is not supported")
  | _ =>
    match apply_phenotype_definition phenotype_definition
        cohort_info.feature_names cohort_info.features with
    | .error e => .error ("Failed to apply phenotype definition: " ++ e)
    | .ok phenotype =>
      let beta0 := regress_left_inverse_vec phenotype cohort_info.left_inverse
      let beta := beta0.take (beta0.length - 1)
      Projection.new cohort_info.feature_names beta

/-- Sample feature A used by the concrete witnesses: code "A", Real type. -/
def fA : Feature :=
  { id := 1, code := "A", name := "Feature A", node_type := NodeType.Real,
    sample_size := 4, cohort_id := 1 }

/-- Sample feature B used by the concrete witnesses: code "B", Bool type. -/
def fB : Feature :=
  { id := 2, code := "B", name := "Feature B", node_type := NodeType.Bool,
    sample_size := 4, cohort_id := 1 }

/-- Sample on-disk left-inverse matrix (N = 4 rows, F + 1 = 3 columns). -/
def diskTest : List (List ℚ) :=
  [[1, 0, 0], [0, 1, 0], [0, 0, 1], [0, 0, 0]]

/-- Sample cohort with F = 2 features A, B over N = 4 samples, mirroring
end-to-end scenario 1 of the spec; the left inverse is produced by the
load-time transpose of `diskTest`. -/
def cohortTest : CohortData :=
  { cohort := { id := some 1, name := "Test", normalized_name := "test",
                num_covar := some 0 },
    features := [[1, 0], [2, 1], [3, 0], [4, 1]],
    feature_names := ["A", "B"],
    left_inverse := CohortData.load_left_inverse diskTest,
    gwas_rows := 0,
    covariance_matrix := [[1, 0], [0, 1]] }

/-- Embeds `enum WebGWASResultStatus` from `src/models.rs` (lines 117-124). -/
inductive WebGWASResultStatus where
  | Queued
  | Uploading
  | Done
  | Error
  deriving DecidableEq

/-- Embeds `struct WebGWASResult` from `src/models.rs` (lines 134-144); the
`Uuid` request id is a `Nat` and the `PathBuf` is a `String`. -/
structure WebGWASResult where
  request_id : Nat
  status : WebGWASResultStatus
  error_msg : Option String
  url : Option String
  local_result_file : Option String
  deriving DecidableEq

/-- Embeds `struct WebGWASRequestId` from `src/models.rs` (lines 110-115);
the arrival `Instant` is an abstract tick. -/
structure WebGWASRequestId where
  id : Nat
  request_time : Nat
  phenotype_definition : List Node
  cohort_id : Int
  deriving DecidableEq

/-- The configuration fields of the settings record that `src/worker.rs`
reads: `dry_run`, `s3_bucket` and `s3_result_path`. -/
structure Settings where
  dry_run : Bool
  s3_bucket : String
  s3_result_path : String
  deriving DecidableEq

/-- The fields of `AppState` that `src/worker.rs` reads: the two guarded
maps (modelled as association lists), the root directory and the settings. -/
structure AppState where
  cohort_id_to_data : List (Int × CohortData)
  results : List (Nat × WebGWASResult)
  root_directory : String
  settings : Settings
  deriving DecidableEq

/-- Observable side effects of one pipeline run, in program order: the GWAS
TSV write, the three registry writes (each recording the fields it sets),
metadata and zip creation, file removals, the S3 upload and the presigned
URL request. -/
inductive Event where
  | igwasWrite : String → Event
  | setUploading : String → Event
  | setDone : Option String → Event
  | setError : String → Event
  | createMetadata : String → Event
  | createZip : String → Event
  | removeFile : String → Event
  | uploadFile : String → String → Event
  | presign : String → Event
  deriving DecidableEq

/-- Modelled from the spec: outcomes of the pipeline steps whose
implementations are outside `src/` or perform I/O — `run_igwas_df_impl`
(section 4.4), the metadata file write and the zip write (section 4.5), the
two `std::fs::remove_file` calls, and the S3 upload returning a presigned
URL (section 4.5). Each request run is parametrized by these outcomes. -/
structure WorkerEnv where
  igwas : Except String Unit
  create_metadata : Except String Unit
  create_zip : Except String Unit
  remove_metadata : Except String Unit
  upload : Except String String
  remove_zip : Except String Unit
  deriving DecidableEq

/-- Embeds `results.get_mut(&request.id)` followed by field mutation: if the
key is present, every entry with that key is updated in place; otherwise
`none` (the Rust `context("Failed to get result")` error path). -/
def updateResult (results : List (Nat × WebGWASResult)) (id : Nat)
    (f : WebGWASResult → WebGWASResult) :
    Option (List (Nat × WebGWASResult)) :=
  match results.lookup id with
  | some _ =>
    some (results.map (fun p => if p.1 = id then (p.1, f p.2) else p))
  | none => none

/-- Embeds `Path::with_extension("")` on a file name: drop everything from
the last dot onward; a path without a dot is unchanged. -/
def dropExtension (s : String) : String :=
  if s.toList.contains '.' then
    String.mk (((s.toList.reverse.dropWhile (fun c => c ≠ '.')).drop 1).reverse)
  else s

/-- Embeds `output_path.with_extension("").with_extension("zip")` from
`create_output_zip` (`src/worker.rs` line 264). -/
def zip_path_of (p : String) : String := dropExtension p ++ ".zip"

/-- Embeds `handle_webgwas_request` from `src/worker.rs` (lines 47-124),
returning the Rust function's result, the updated shared state, and the
trace of observable events in program order. Step numbering follows the
source: 0 cohort lookup, 1 projection (an error sets the result to Error
with a diagnostic), 2 projection variance, 3 GWAS (the `expect` on
`num_covar` panics in Rust and is modelled as an error), then the Uploading
registry write together with the local result path, metadata and zip
creation, metadata removal, the dry-run-conditional upload with zip removal,
and the final Done registry write storing the URL. -/
def handle_webgwas_request (env : WorkerEnv) (state : AppState)
    (request : WebGWASRequestId) :
    Except String Unit × AppState × List Event :=
  match state.cohort_id_to_data.lookup request.cohort_id with
  | none =>
    (Except.error ("Failed to get cohort info for " ++ toString request.cohort_id),
     state, [])
  | some cohort_info =>
    match compute_projection request.phenotype_definition cohort_info with
    | Except.error err =>
      match updateResult state.results request.id (fun r =>
          { r with status := WebGWASResultStatus.Error,
                   error_msg :=
                     some ("Failed to compute projection: " ++ err) }) with
      | none => (Except.error "Failed to get result", state, [])
      | some results1 =>
        (Except.error err, { state with results := results1 },
         [Event.setError ("Failed to compute projection: " ++ err)])
    | Except.ok projection =>
      let beta := projection.feature_coefficient
      let _projection_variance :=
        dotProd beta (matVec cohort_info.covariance_matrix beta)
      let output_path :=
        state.root_directory ++ "/results/" ++ toString request.id ++ ".tsv"
      match cohort_info.cohort.num_covar with
      | none => (Except.error "Num_covar is missing", state, [])
      | some _ =>
        match env.igwas with
        | Except.error e => (Except.error e, state, [])
        | Except.ok _ =>
          match updateResult state.results request.id (fun r =>
              { r with status := WebGWASResultStatus.Uploading,
                       local_result_file := some output_path }) with
          | none =>
            (Except.error "Failed to get result", state,
             [Event.igwasWrite output_path])
          | some results1 =>
            let state1 := { state with results := results1 }
            let trace1 :=
              [Event.igwasWrite output_path, Event.setUploading output_path]
            let metadata_path :=
              state.root_directory ++ "/results/" ++ toString request.id ++ ".txt"
            match env.create_metadata with
            | Except.error e => (Except.error e, state1, trace1)
            | Except.ok _ =>
              let trace2 := trace1 ++ [Event.createMetadata metadata_path]
              let output_zip_path := zip_path_of output_path
              match env.create_zip with
              | Except.error e => (Except.error e, state1, trace2)
              | Except.ok _ =>
                let trace3 := trace2 ++ [Event.createZip output_zip_path]
                match env.remove_metadata with
                | Except.error e => (Except.error e, state1, trace3)
                | Except.ok _ =>
                  let trace4 := trace3 ++ [Event.removeFile metadata_path]
                  let upload_phase :
                      Except String (Option String × List Event) :=
                    if state.settings.dry_run then
                      Except.ok (none, [])
                    else
                      let key := state.settings.s3_result_path ++ "/" ++
                        toString request.id ++ ".zip"
                      match env.upload with
                      | Except.error e => Except.error e
                      | Except.ok url =>
                        match env.remove_zip with
                        | Except.error e => Except.error e
                        | Except.ok _ =>
                          Except.ok (some url,
                            [Event.uploadFile output_zip_path key,
                             Event.presign key,
                             Event.removeFile output_zip_path])
                  match upload_phase with
                  | Except.error e => (Except.error e, state1, trace4)
                  | Except.ok (url, trace5) =>
                    match updateResult state1.results request.id (fun r =>
                        { r with status := WebGWASResultStatus.Done,
                                 url := url }) with
                    | none =>
                      (Except.error "Result not found", state1,
                       trace4 ++ trace5)
                    | some results2 =>
                      (Except.ok (), { state1 with results := results2 },
                       trace4 ++ trace5 ++ [Event.setDone url])

/-- Embeds one iteration of `worker_loop` from `src/worker.rs` (lines 27-45)
on a dequeued request: the request is handled, any returned error is only
logged, and the loop continues with the resulting state. -/
def worker_step (env : WorkerEnv) (state : AppState)
    (request : WebGWASRequestId) : AppState :=
  (handle_webgwas_request env state request).2.1

/-- Embeds the worker loop draining a queue of pending requests in pop
order, each paired with the I/O outcomes of its own run; every request is
processed from the state left by its predecessors, whether or not any
predecessor failed. -/
def worker_process (items : List (WorkerEnv × WebGWASRequestId))
    (state : AppState) : AppState :=
  items.foldl (fun st p => worker_step p.1 st p.2) state

/-- The subsequence of registry status writes in an event trace. -/
def statusWrites (trace : List Event) : List Event :=
  trace.filter (fun e =>
    match e with
    | Event.setUploading _ => true
    | Event.setDone _ => true
    | Event.setError _ => true
    | _ => false)

/-- Sample initial result registry entry for request 7, in status Queued. -/
def r0Test : WebGWASResult :=
  { request_id := 7, status := WebGWASResultStatus.Queued,
    error_msg := none, url := none, local_result_file := none }

/-- Sample request 7: the single-feature expression A against cohort 1. -/
def requestA : WebGWASRequestId :=
  { id := 7, request_time := 0,
    phenotype_definition := [Node.Feature fA], cohort_id := 1 }

/-- Sample request 7 variant whose phenotype is a bare operator node, which
compute_projection rejects. -/
def requestOp : WebGWASRequestId :=
  { id := 7, request_time := 0,
    phenotype_definition := [Node.Operator Operators.Add], cohort_id := 1 }

/-- Sample shared state: cohort 1 is loaded, request 7 is registered as
Queued, uploads are live (dry_run = false). -/
def stateTest : AppState :=
  { cohort_id_to_data := [(1, cohortTest)],
    results := [(7, r0Test)],
    root_directory := "/data",
    settings := { dry_run := false, s3_bucket := "bucket",
                  s3_result_path := "res" } }

/-- Sample shared state with dry_run = true. -/
def stateTestDry : AppState :=
  { stateTest with
    settings := { dry_run := true, s3_bucket := "bucket",
                  s3_result_path := "res" } }

/-- Environment in which every pipeline step succeeds. -/
def envAllOk : WorkerEnv :=
  { igwas := Except.ok (), create_metadata := Except.ok (),
    create_zip := Except.ok (), remove_metadata := Except.ok (),
    upload := Except.ok "https://example.com/result",
    remove_zip := Except.ok () }

/-- Environment in which the indirect-GWAS step fails. -/
def envIgwasFail : WorkerEnv :=
  { envAllOk with igwas := Except.error "igwas failed" }

/-- The thirteen uppercase tag spellings accepted by `Operators::from_str`. -/
def operatorTags : List String :=
  ["ROOT", "ADD", "SUB", "MUL", "DIV", "AND", "OR", "NOT",
   "GT", "GE", "LT", "LE", "EQ"]

/-- Modelled from the spec: the compression method tags of the zip library
(the source selects Deflated). -/
inductive CompressionMethod where
  | Stored
  | Deflated
  deriving DecidableEq

/-- Modelled from the spec: an archive entry records its fixed name in the
archive, the compression method, the unix permissions, and the entry bytes;
per the spec round trip (section 8) a re-opened deflate archive yields
byte-identical content, so the entry carries the written bytes. -/
structure ZipEntry where
  name : String
  method : CompressionMethod
  unix_permissions : Nat
  data : List Nat
  deriving DecidableEq

/-- Modelled from the spec: the zip writer accumulates entries in write
order. -/
structure ZipWriter where
  entries : List ZipEntry
  deriving DecidableEq

/-- Embeds `add_file_to_zip` from `src/worker.rs` (lines 245-261): the file
at `file_path` is read (file I/O modelled by the map `fs` from paths to byte
contents) and appended as an entry named `name_in_zip` with the Deflated
compression method and unix permissions 0o644. -/
def add_file_to_zip (fs : String → Option (List Nat)) (zip_writer : ZipWriter)
    (file_path : String) (name_in_zip : String) : Except String ZipWriter :=
  match fs file_path with
  | none => Except.error ("Failed to open " ++ file_path)
  | some data =>
    Except.ok { entries := zip_writer.entries ++
      [{ name := name_in_zip, method := CompressionMethod.Deflated,
         unix_permissions := 0o644, data := data }] }

/-- Embeds `create_output_zip` from `src/worker.rs` (lines 263-270): a
fresh archive at the derived zip path receives `results.tsv` from the
output path and then `metadata.txt` from the metadata path. -/
def create_output_zip (fs : String → Option (List Nat))
    (output_path metadata_path : String) :
    Except String (String × ZipWriter) :=
  let output_zip_path := zip_path_of output_path
  match add_file_to_zip fs { entries := [] } output_path "results.tsv" with
  | Except.error e => Except.error e
  | Except.ok w1 =>
    match add_file_to_zip fs w1 metadata_path "metadata.txt" with
    | Except.error e => Except.error e
    | Except.ok w2 => Except.ok (output_zip_path, w2)

/-- Sample file system holding the request-7 TSV and metadata files. -/
def fsTest : String → Option (List Nat) :=
  fun p =>
    if p = "/data/results/7.tsv" then some [118, 97, 114]
    else if p = "/data/results/7.txt" then some [105, 100]
    else none

/-- Mapping a membership indicator over a list that does not contain the
marked element yields the all-zero vector. -/
theorem map_indicator_of_not_mem {a : String} {l : List String} (h : a ∉ l) :
    l.map (fun n => if a = n then (1:ℚ) else 0) = List.replicate l.length 0 := by
  induction l with
  | nil => rfl
  | cons x xs ih =>
    simp only [List.mem_cons, not_or] at h
    simp [List.replicate_succ, if_neg h.1, ih h.2]

/-- Mapping a membership indicator over a duplicate-free list containing the
marked element yields the standard basis vector at its index. -/
theorem map_indicator_eq_basis {a : String} {l : List String}
    (hnd : l.Nodup) (hmem : a ∈ l) :
    l.map (fun n => if a = n then (1:ℚ) else 0)
      = (List.replicate l.length 0).set (l.indexOf a) 1 := by
  induction l with
  | nil => cases hmem
  | cons x xs ih =>
    rcases List.nodup_cons.mp hnd with ⟨hx, hxs⟩
    by_cases hax : a = x
    · subst hax
      rw [List.indexOf_cons_self]
      simp [List.replicate_succ, map_indicator_of_not_mem hx]
    · have hmem' : a ∈ xs := by
        rcases List.mem_cons.mp hmem with h | h
        · exact absurd h hax
        · exact h
      rw [List.indexOf_cons_ne _ (fun h => hax h.symm)]
      simp [List.replicate_succ, if_neg hax, ih hxs hmem']

/-- Transposing a nonempty matrix whose rows all have length `c` yields a
matrix with `c` rows, each as long as the original row count. -/
theorem transposeMat_shape (r : List ℚ) (rest : List (List ℚ)) (c : Nat)
    (hrows : ∀ row ∈ r :: rest, row.length = c) :
    (transposeMat (r :: rest)).length = c ∧
    ∀ row ∈ transposeMat (r :: rest), row.length = rest.length + 1 := by
  constructor
  · simp [transposeMat, hrows r (List.mem_cons_self r rest)]
  · intro row hrow
    simp only [transposeMat, List.mem_map] at hrow
    obtain ⟨j, _, rfl⟩ := hrow
    simp

/-- Claim C1: for every node list consisting of exactly one Feature node
whose code occurs in the cohort's (duplicate-free) feature names,
`compute_projection` takes the fast path and returns a projection whose
`feature_id` is the cohort's feature names in order and whose coefficient
vector is the standard basis vector selecting that feature's column: 1 at
the feature's index, 0 elsewhere. -/
theorem compute_projection_single_feature (feature : Feature)
    (ci : CohortData) (hmem : feature.code ∈ ci.feature_names)
    (hnd : ci.feature_names.Nodup) :
    compute_projection [Node.Feature feature] ci =
      Except.ok { feature_id := ci.feature_names,
                  feature_coefficient :=
                    (List.replicate ci.feature_names.length 0).set
                      (ci.feature_names.indexOf feature.code) 1 } := by
  have hpt : ∀ n : String,
      (match ([feature.code] : List String).indexOf? n with
       | some i => ([(1:ℚ)]).getD i 0
       | none => 0) = if feature.code = n then (1:ℚ) else 0 := by
    intro n
    rw [List.indexOf?_cons, List.indexOf?_nil]
    by_cases h : feature.code = n
    · simp [h]
    · simp [h]
  unfold compute_projection
  simp only [Projection.new, Projection.standardize, List.length_cons,
    List.length_nil, if_true, if_pos hmem]
  rw [List.map_congr_left (fun n _ => hpt n),
    map_indicator_eq_basis hnd hmem]

/-- Witness for C1: on the sample cohort, the single-feature expression "A"
projects to the basis vector [1, 0]. -/
theorem compute_projection_single_feature_witness :
    compute_projection [Node.Feature fA] cohortTest =
      Except.ok { feature_id := ["A", "B"], feature_coefficient := [1, 0] } := by
  have h := compute_projection_single_feature fA cohortTest (by decide)
    (by decide)
  rw [h]
  with_unfolding_all rfl

/-- Claim C3: for every node list with more than one node,
`compute_projection` evaluates the phenotype vector `y`, computes beta as the
matrix-vector product of the cohort's cached left inverse (the load-time
transpose of the on-disk N x (F+1) matrix, hence of shape (F+1) x N) with
`y`, drops the last element (the intercept), and returns a beta of length F
paired with the cohort's feature name ordering. -/
theorem compute_projection_multi (nodes : List Node) (ci : CohortData)
    (disk : List (List ℚ)) (y : List ℚ)
    (hlen : 1 < nodes.length)
    (hload : ci.left_inverse = CohortData.load_left_inverse disk)
    (hdisk_ne : disk ≠ [])
    (hdisk_rows : ∀ r ∈ disk, r.length = ci.feature_names.length + 1)
    (happly : apply_phenotype_definition nodes ci.feature_names ci.features =
      Except.ok y) :
    ci.left_inverse.length = ci.feature_names.length + 1 ∧
    (∀ r ∈ ci.left_inverse, r.length = disk.length) ∧
    compute_projection nodes ci =
      Except.ok { feature_id := ci.feature_names,
                  feature_coefficient :=
                    (matVec ci.left_inverse y).take ci.feature_names.length } ∧
    ((matVec ci.left_inverse y).take ci.feature_names.length).length
        = ci.feature_names.length := by
  obtain ⟨r, rest, rfl⟩ : ∃ r rest, disk = r :: rest := by
    cases disk with
    | nil => exact absurd rfl hdisk_ne
    | cons r rest => exact ⟨r, rest, rfl⟩
  obtain ⟨hshape, hrows⟩ := transposeMat_shape r rest _ hdisk_rows
  have hL : ci.left_inverse.length = ci.feature_names.length + 1 := by
    rw [hload, CohortData.load_left_inverse, hshape]
  have hlenmv : (matVec ci.left_inverse y).length
      = ci.feature_names.length + 1 := by
    simp [matVec, hL]
  have htake : ((matVec ci.left_inverse y).take ci.feature_names.length).length
      = ci.feature_names.length := by
    rw [List.length_take, hlenmv]
    omega
  refine ⟨hL, ?_, ?_, htake⟩
  · intro row hrow
    rw [hload, CohortData.load_left_inverse] at hrow
    have := hrows row hrow
    simpa using this
  · obtain ⟨a, b, t, rfl⟩ : ∃ a b t, nodes = a :: b :: t := by
      match nodes with
      | [] => simp at hlen
      | [a] => simp at hlen
      | a :: b :: t => exact ⟨a, b, t, rfl⟩
    unfold compute_projection
    rw [happly]
    simp only [regress_left_inverse_vec, hlenmv, Nat.add_sub_cancel]
    simp [Projection.new, htake]

/-- Witness for C3: on the sample cohort, the expression A B ADD ROOT
evaluates to y = [1, 3, 3, 5] and projects through the left inverse to a
beta of length 2. -/
theorem compute_projection_multi_witness :
    compute_projection [Node.Feature fA, Node.Feature fB,
        Node.Operator Operators.Add, Node.Operator Operators.Root]
      cohortTest =
      Except.ok { feature_id := ["A", "B"], feature_coefficient := [1, 3] } := by
  have h := compute_projection_multi
    [Node.Feature fA, Node.Feature fB,
      Node.Operator Operators.Add, Node.Operator Operators.Root]
    cohortTest diskTest [1, 3, 3, 5]
    (by decide) rfl (by decide) (by decide) (by with_unfolding_all rfl)
  rw [h.2.2.1]
  with_unfolding_all rfl

/-- Looking up a key after the in-place update of every matching entry returns the updated value. -/
theorem lookup_map_update (l : List (Nat × WebGWASResult)) (id : Nat)
    (f : WebGWASResult → WebGWASResult) :
    (l.map (fun p => if p.1 = id then (p.1, f p.2) else p)).lookup id
      = (l.lookup id).map f := by
  induction l with
  | nil => rfl
  | cons p rest ih =>
    obtain ⟨k, v⟩ := p
    by_cases h : k = id
    · subst h
      simp only [List.map_cons, if_true]
      rw [List.lookup, List.lookup]
      simp
    · simp only [List.map_cons, if_neg h]
      have hbeq : (id == k) = false := by simpa using Ne.symm h
      rw [List.lookup, List.lookup]
      simp [hbeq, ih]

/-- Specialization of the update-lookup lemma to the Uploading registry write. -/
theorem lookup_map_uploading (l : List (Nat × WebGWASResult)) (id : Nat)
    (out : String) :
    (l.map (fun p => if p.1 = id then
        (p.1, { request_id := p.2.request_id,
                status := WebGWASResultStatus.Uploading,
                error_msg := p.2.error_msg, url := p.2.url,
                local_result_file := some out }) else p)).lookup id
      = (l.lookup id).map (fun r =>
          { request_id := r.request_id,
            status := WebGWASResultStatus.Uploading,
            error_msg := r.error_msg, url := r.url,
            local_result_file := some out }) :=
  lookup_map_update l id (fun r =>
    { request_id := r.request_id, status := WebGWASResultStatus.Uploading,
      error_msg := r.error_msg, url := r.url,
      local_result_file := some out })

/-- Specialization of the update-lookup lemma to the Done registry write. -/
theorem lookup_map_done (l : List (Nat × WebGWASResult)) (id : Nat)
    (u : Option String) :
    (l.map (fun p => if p.1 = id then
        (p.1, { request_id := p.2.request_id,
                status := WebGWASResultStatus.Done,
                error_msg := p.2.error_msg, url := u,
                local_result_file := p.2.local_result_file }) else p)).lookup id
      = (l.lookup id).map (fun r =>
          { request_id := r.request_id,
            status := WebGWASResultStatus.Done,
            error_msg := r.error_msg, url := u,
            local_result_file := r.local_result_file }) :=
  lookup_map_update l id (fun r =>
    { request_id := r.request_id, status := WebGWASResultStatus.Done,
      error_msg := r.error_msg, url := u,
      local_result_file := r.local_result_file })

/-- Full characterization of handle_webgwas_request on the non-dry-run success path: the result is ok, the event trace is the nine-step program-order list, and the registry entry ends Done with the local path and URL set. -/
theorem handle_success_eq (env : WorkerEnv) (state : AppState)
    (request : WebGWASRequestId) (cohort_info : CohortData)
    (proj : Projection) (k : Int) (url : String) (r0 : WebGWASResult)
    (hc : state.cohort_id_to_data.lookup request.cohort_id = some cohort_info)
    (hproj : compute_projection request.phenotype_definition cohort_info =
      Except.ok proj)
    (hnc : cohort_info.cohort.num_covar = some k)
    (higwas : env.igwas = Except.ok ())
    (hr0 : state.results.lookup request.id = some r0)
    (hmeta : env.create_metadata = Except.ok ())
    (hzip : env.create_zip = Except.ok ())
    (hrmmeta : env.remove_metadata = Except.ok ())
    (hdry : state.settings.dry_run = false)
    (hupload : env.upload = Except.ok url)
    (hrmzip : env.remove_zip = Except.ok ()) :
    (handle_webgwas_request env state request).1 = Except.ok () ∧
    (handle_webgwas_request env state request).2.2 =
      [Event.igwasWrite
        (state.root_directory ++ "/results/" ++ toString request.id ++ ".tsv"),
       Event.setUploading
        (state.root_directory ++ "/results/" ++ toString request.id ++ ".tsv"),
       Event.createMetadata
        (state.root_directory ++ "/results/" ++ toString request.id ++ ".txt"),
       Event.createZip (zip_path_of
        (state.root_directory ++ "/results/" ++ toString request.id ++ ".tsv")),
       Event.removeFile
        (state.root_directory ++ "/results/" ++ toString request.id ++ ".txt"),
       Event.uploadFile (zip_path_of
        (state.root_directory ++ "/results/" ++ toString request.id ++ ".tsv"))
        (state.settings.s3_result_path ++ "/" ++ toString request.id ++ ".zip"),
       Event.presign
        (state.settings.s3_result_path ++ "/" ++ toString request.id ++ ".zip"),
       Event.removeFile (zip_path_of
        (state.root_directory ++ "/results/" ++ toString request.id ++ ".tsv")),
       Event.setDone (some url)] ∧
    (handle_webgwas_request env state request).2.1.results.lookup request.id =
      some { r0 with
              status := WebGWASResultStatus.Done,
              local_result_file := some
                (state.root_directory ++ "/results/" ++
                  toString request.id ++ ".tsv"),
              url := some url } := by
  unfold handle_webgwas_request
  simp only [hc, hproj, hnc, higwas, hmeta, hzip, hrmmeta, hupload, hrmzip,
    hdry, updateResult, lookup_map_uploading, lookup_map_done, hr0,
    Option.map_some', Bool.false_eq_true, if_false, List.cons_append,
    List.nil_append, List.append_assoc]
  exact ⟨trivial, trivial, trivial⟩

/-- Specialization of the update-lookup lemma to the Error registry write. -/
theorem lookup_map_error (l : List (Nat × WebGWASResult)) (id : Nat)
    (msg : String) :
    (l.map (fun p => if p.1 = id then
        (p.1, { request_id := p.2.request_id,
                status := WebGWASResultStatus.Error,
                error_msg := some msg, url := p.2.url,
                local_result_file := p.2.local_result_file }) else p)).lookup id
      = (l.lookup id).map (fun r =>
          { request_id := r.request_id,
            status := WebGWASResultStatus.Error,
            error_msg := some msg, url := r.url,
            local_result_file := r.local_result_file }) :=
  lookup_map_update l id (fun r =>
    { request_id := r.request_id, status := WebGWASResultStatus.Error,
      error_msg := some msg, url := r.url,
      local_result_file := r.local_result_file })

/-- Full characterization of handle_webgwas_request on the dry-run success path: no upload or presign events, the URL stays none, and the registry entry ends Done. -/
theorem handle_dryrun_eq (env : WorkerEnv) (state : AppState)
    (request : WebGWASRequestId) (cohort_info : CohortData)
    (proj : Projection) (k : Int) (r0 : WebGWASResult)
    (hc : state.cohort_id_to_data.lookup request.cohort_id = some cohort_info)
    (hproj : compute_projection request.phenotype_definition cohort_info =
      Except.ok proj)
    (hnc : cohort_info.cohort.num_covar = some k)
    (higwas : env.igwas = Except.ok ())
    (hr0 : state.results.lookup request.id = some r0)
    (hmeta : env.create_metadata = Except.ok ())
    (hzip : env.create_zip = Except.ok ())
    (hrmmeta : env.remove_metadata = Except.ok ())
    (hdry : state.settings.dry_run = true) :
    (handle_webgwas_request env state request).1 = Except.ok () ∧
    (handle_webgwas_request env state request).2.2 =
      [Event.igwasWrite
        (state.root_directory ++ "/results/" ++ toString request.id ++ ".tsv"),
       Event.setUploading
        (state.root_directory ++ "/results/" ++ toString request.id ++ ".tsv"),
       Event.createMetadata
        (state.root_directory ++ "/results/" ++ toString request.id ++ ".txt"),
       Event.createZip (zip_path_of
        (state.root_directory ++ "/results/" ++ toString request.id ++ ".tsv")),
       Event.removeFile
        (state.root_directory ++ "/results/" ++ toString request.id ++ ".txt"),
       Event.setDone none] ∧
    (handle_webgwas_request env state request).2.1.results.lookup request.id =
      some { r0 with
              status := WebGWASResultStatus.Done,
              local_result_file := some
                (state.root_directory ++ "/results/" ++
                  toString request.id ++ ".tsv"),
              url := none } := by
  unfold handle_webgwas_request
  simp only [hc, hproj, hnc, higwas, hmeta, hzip, hrmmeta, hdry, updateResult,
    lookup_map_uploading, lookup_map_done, hr0, Option.map_some', if_true,
    List.cons_append, List.nil_append, List.append_assoc]
  exact ⟨trivial, trivial, trivial⟩

/-- A projection failure sets the registry entry to Error with the diagnostic message and returns the error. -/
theorem handle_proj_error_eq (env : WorkerEnv) (state : AppState)
    (request : WebGWASRequestId) (cohort_info : CohortData)
    (err : String) (r0 : WebGWASResult)
    (hc : state.cohort_id_to_data.lookup request.cohort_id = some cohort_info)
    (hproj : compute_projection request.phenotype_definition cohort_info =
      Except.error err)
    (hr0 : state.results.lookup request.id = some r0) :
    (handle_webgwas_request env state request).1 = Except.error err ∧
    (handle_webgwas_request env state request).2.2 =
      [Event.setError ("Failed to compute projection: " ++ err)] ∧
    (handle_webgwas_request env state request).2.1.results.lookup request.id =
      some { r0 with
              status := WebGWASResultStatus.Error,
              error_msg := some ("Failed to compute projection: " ++ err) } := by
  unfold handle_webgwas_request
  simp only [hc, hproj, updateResult, lookup_map_error, hr0, Option.map_some']
  exact ⟨trivial, trivial, trivial⟩

/-- An indirect-GWAS failure propagates the error and leaves the state untouched. -/
theorem handle_igwas_error_eq (env : WorkerEnv) (state : AppState)
    (request : WebGWASRequestId) (cohort_info : CohortData)
    (proj : Projection) (k : Int) (e : String)
    (hc : state.cohort_id_to_data.lookup request.cohort_id = some cohort_info)
    (hproj : compute_projection request.phenotype_definition cohort_info =
      Except.ok proj)
    (hnc : cohort_info.cohort.num_covar = some k)
    (higwas : env.igwas = Except.error e) :
    handle_webgwas_request env state request = (Except.error e, state, []) := by
  unfold handle_webgwas_request
  simp only [hc, hproj, hnc, higwas]

/-- A metadata-file failure propagates the error and leaves the registry entry at Uploading. -/
theorem handle_meta_error_eq (env : WorkerEnv) (state : AppState)
    (request : WebGWASRequestId) (cohort_info : CohortData)
    (proj : Projection) (k : Int) (r0 : WebGWASResult) (e : String)
    (hc : state.cohort_id_to_data.lookup request.cohort_id = some cohort_info)
    (hproj : compute_projection request.phenotype_definition cohort_info =
      Except.ok proj)
    (hnc : cohort_info.cohort.num_covar = some k)
    (higwas : env.igwas = Except.ok ())
    (hr0 : state.results.lookup request.id = some r0)
    (hmeta : env.create_metadata = Except.error e) :
    (handle_webgwas_request env state request).1 = Except.error e ∧
    (handle_webgwas_request env state request).2.1.results.lookup request.id =
      some { r0 with
              status := WebGWASResultStatus.Uploading,
              local_result_file := some
                (state.root_directory ++ "/results/" ++
                  toString request.id ++ ".tsv") } := by
  unfold handle_webgwas_request
  simp only [hc, hproj, hnc, higwas, hmeta, updateResult,
    lookup_map_uploading, hr0, Option.map_some']
  exact ⟨trivial, trivial⟩

/-- A zip-creation failure propagates the error and leaves the registry entry at Uploading. -/
theorem handle_zip_error_eq (env : WorkerEnv) (state : AppState)
    (request : WebGWASRequestId) (cohort_info : CohortData)
    (proj : Projection) (k : Int) (r0 : WebGWASResult) (e : String)
    (hc : state.cohort_id_to_data.lookup request.cohort_id = some cohort_info)
    (hproj : compute_projection request.phenotype_definition cohort_info =
      Except.ok proj)
    (hnc : cohort_info.cohort.num_covar = some k)
    (higwas : env.igwas = Except.ok ())
    (hr0 : state.results.lookup request.id = some r0)
    (hmeta : env.create_metadata = Except.ok ())
    (hzip : env.create_zip = Except.error e) :
    (handle_webgwas_request env state request).1 = Except.error e ∧
    (handle_webgwas_request env state request).2.1.results.lookup request.id =
      some { r0 with
              status := WebGWASResultStatus.Uploading,
              local_result_file := some
                (state.root_directory ++ "/results/" ++
                  toString request.id ++ ".tsv") } := by
  unfold handle_webgwas_request
  simp only [hc, hproj, hnc, higwas, hmeta, hzip, updateResult,
    lookup_map_uploading, hr0, Option.map_some']
  exact ⟨trivial, trivial⟩

/-- A metadata-removal failure propagates the error and leaves the registry entry at Uploading. -/
theorem handle_rmmeta_error_eq (env : WorkerEnv) (state : AppState)
    (request : WebGWASRequestId) (cohort_info : CohortData)
    (proj : Projection) (k : Int) (r0 : WebGWASResult) (e : String)
    (hc : state.cohort_id_to_data.lookup request.cohort_id = some cohort_info)
    (hproj : compute_projection request.phenotype_definition cohort_info =
      Except.ok proj)
    (hnc : cohort_info.cohort.num_covar = some k)
    (higwas : env.igwas = Except.ok ())
    (hr0 : state.results.lookup request.id = some r0)
    (hmeta : env.create_metadata = Except.ok ())
    (hzip : env.create_zip = Except.ok ())
    (hrmmeta : env.remove_metadata = Except.error e) :
    (handle_webgwas_request env state request).1 = Except.error e ∧
    (handle_webgwas_request env state request).2.1.results.lookup request.id =
      some { r0 with
              status := WebGWASResultStatus.Uploading,
              local_result_file := some
                (state.root_directory ++ "/results/" ++
                  toString request.id ++ ".tsv") } := by
  unfold handle_webgwas_request
  simp only [hc, hproj, hnc, higwas, hmeta, hzip, hrmmeta, updateResult,
    lookup_map_uploading, hr0, Option.map_some']
  exact ⟨trivial, trivial⟩

/-- An upload failure propagates the error and leaves the registry entry at Uploading. -/
theorem handle_upload_error_eq (env : WorkerEnv) (state : AppState)
    (request : WebGWASRequestId) (cohort_info : CohortData)
    (proj : Projection) (k : Int) (r0 : WebGWASResult) (e : String)
    (hc : state.cohort_id_to_data.lookup request.cohort_id = some cohort_info)
    (hproj : compute_projection request.phenotype_definition cohort_info =
      Except.ok proj)
    (hnc : cohort_info.cohort.num_covar = some k)
    (higwas : env.igwas = Except.ok ())
    (hr0 : state.results.lookup request.id = some r0)
    (hmeta : env.create_metadata = Except.ok ())
    (hzip : env.create_zip = Except.ok ())
    (hrmmeta : env.remove_metadata = Except.ok ())
    (hdry : state.settings.dry_run = false)
    (hupload : env.upload = Except.error e) :
    (handle_webgwas_request env state request).1 = Except.error e ∧
    (handle_webgwas_request env state request).2.1.results.lookup request.id =
      some { r0 with
              status := WebGWASResultStatus.Uploading,
              local_result_file := some
                (state.root_directory ++ "/results/" ++
                  toString request.id ++ ".tsv") } := by
  unfold handle_webgwas_request
  simp only [hc, hproj, hnc, higwas, hmeta, hzip, hrmmeta, hdry, hupload,
    updateResult, lookup_map_uploading, hr0, Option.map_some',
    Bool.false_eq_true, if_false]
  exact ⟨trivial, trivial⟩

/-- A zip-removal failure propagates the error and leaves the registry entry at Uploading. -/
theorem handle_rmzip_error_eq (env : WorkerEnv) (state : AppState)
    (request : WebGWASRequestId) (cohort_info : CohortData)
    (proj : Projection) (k : Int) (r0 : WebGWASResult) (url e : String)
    (hc : state.cohort_id_to_data.lookup request.cohort_id = some cohort_info)
    (hproj : compute_projection request.phenotype_definition cohort_info =
      Except.ok proj)
    (hnc : cohort_info.cohort.num_covar = some k)
    (higwas : env.igwas = Except.ok ())
    (hr0 : state.results.lookup request.id = some r0)
    (hmeta : env.create_metadata = Except.ok ())
    (hzip : env.create_zip = Except.ok ())
    (hrmmeta : env.remove_metadata = Except.ok ())
    (hdry : state.settings.dry_run = false)
    (hupload : env.upload = Except.ok url)
    (hrmzip : env.remove_zip = Except.error e) :
    (handle_webgwas_request env state request).1 = Except.error e ∧
    (handle_webgwas_request env state request).2.1.results.lookup request.id =
      some { r0 with
              status := WebGWASResultStatus.Uploading,
              local_result_file := some
                (state.root_directory ++ "/results/" ++
                  toString request.id ++ ".tsv") } := by
  unfold handle_webgwas_request
  simp only [hc, hproj, hnc, higwas, hmeta, hzip, hrmmeta, hdry, hupload,
    hrmzip, updateResult, lookup_map_uploading, hr0, Option.map_some',
    Bool.false_eq_true, if_false]
  exact ⟨trivial, trivial⟩

/-- A path ending in .tsv never equals a path ending in .txt. -/
theorem tsv_ne_txt (x y : String) : x ++ ".tsv" ≠ y ++ ".txt" := by
  intro h
  have h2 := congrArg (fun s : String => s.data.getLast?) h
  simp only [String.data_append] at h2
  rw [List.getLast?_append_of_ne_nil, List.getLast?_append_of_ne_nil] at h2
  · simp at h2
  · simp
  · simp

/-- A path ending in .tsv never equals a path ending in .zip. -/
theorem tsv_ne_zip (x y : String) : x ++ ".tsv" ≠ y ++ ".zip" := by
  intro h
  have h2 := congrArg (fun s : String => s.data.getLast?) h
  simp only [String.data_append] at h2
  rw [List.getLast?_append_of_ne_nil, List.getLast?_append_of_ne_nil] at h2
  · simp at h2
  · simp
  · simp

/-- Claim C8: the operator table `Operators::value` assigns to every operator
tag exactly the declared record: Root has arity 1 with input and output type
Any; Add, Sub, Mul, Div have arity 2, input type Any, output type Real; And
and Or have arity 2 and Not has arity 1, all with input and output type Bool;
Gt, Ge, Lt, Le, Eq have arity 2, input type Any, output type Bool. In
particular And requires Bool operands and Bool is distinct from Real, so Real
features are incompatible with And. -/
theorem operators_value_table :
    (Operators.Root.value.arity = 1 ∧
      Operators.Root.value.input_type = NodeType.Any ∧
      Operators.Root.value.output_type = NodeType.Any) ∧
    (Operators.Add.value.arity = 2 ∧
      Operators.Add.value.input_type = NodeType.Any ∧
      Operators.Add.value.output_type = NodeType.Real) ∧
    (Operators.Sub.value.arity = 2 ∧
      Operators.Sub.value.input_type = NodeType.Any ∧
      Operators.Sub.value.output_type = NodeType.Real) ∧
    (Operators.Mul.value.arity = 2 ∧
      Operators.Mul.value.input_type = NodeType.Any ∧
      Operators.Mul.value.output_type = NodeType.Real) ∧
    (Operators.Div.value.arity = 2 ∧
      Operators.Div.value.input_type = NodeType.Any ∧
      Operators.Div.value.output_type = NodeType.Real) ∧
    (Operators.And.value.arity = 2 ∧
      Operators.And.value.input_type = NodeType.Bool ∧
      Operators.And.value.output_type = NodeType.Bool) ∧
    (Operators.Or.value.arity = 2 ∧
      Operators.Or.value.input_type = NodeType.Bool ∧
      Operators.Or.value.output_type = NodeType.Bool) ∧
    (Operators.Not.value.arity = 1 ∧
      Operators.Not.value.input_type = NodeType.Bool ∧
      Operators.Not.value.output_type = NodeType.Bool) ∧
    (Operators.Gt.value.arity = 2 ∧
      Operators.Gt.value.input_type = NodeType.Any ∧
      Operators.Gt.value.output_type = NodeType.Bool) ∧
    (Operators.Ge.value.arity = 2 ∧
      Operators.Ge.value.input_type = NodeType.Any ∧
      Operators.Ge.value.output_type = NodeType.Bool) ∧
    (Operators.Lt.value.arity = 2 ∧
      Operators.Lt.value.input_type = NodeType.Any ∧
      Operators.Lt.value.output_type = NodeType.Bool) ∧
    (Operators.Le.value.arity = 2 ∧
      Operators.Le.value.input_type = NodeType.Any ∧
      Operators.Le.value.output_type = NodeType.Bool) ∧
    (Operators.Eq.value.arity = 2 ∧
      Operators.Eq.value.input_type = NodeType.Any ∧
      Operators.Eq.value.output_type = NodeType.Bool) ∧
    (Operators.And.value.input_type = NodeType.Bool ∧
      NodeType.Real ≠ NodeType.Bool) := by
  refine ⟨?_, ?_, ?_, ?_, ?_, ?_, ?_, ?_, ?_, ?_, ?_, ?_, ?_,
    rfl, fun h => nomatch h⟩ <;>
    exact ⟨rfl, rfl, rfl⟩

/-- Claim C9: operator tag parsing is case-insensitive and round-trips with
the canonical name. `Operators::from_str` applied to `o.value().name` (which
is lowercase) returns `Ok(o)` for every operator `o`; it succeeds on every
string whose uppercasing is one of the thirteen tags (hence on every
letter-case variant of a tag); and it returns the `Invalid operator` error on
every string whose uppercasing is not one of the thirteen tags. -/
theorem operators_from_str_round_trip :
    (∀ o : Operators, Operators.from_str (o.value).name = Except.ok o) ∧
    (∀ o : Operators, ((o.value).name.toLower = (o.value).name)) ∧
    (∀ s : String, s.toUpper ∈ operatorTags →
      (Operators.from_str s).isOk = true) ∧
    (∀ s : String, s.toUpper ∉ operatorTags →
      Operators.from_str s = Except.error ("Invalid operator: " ++ s)) := by
  refine ⟨?_, ?_, ?_, ?_⟩
  · intro o
    cases o <;> with_unfolding_all rfl
  · intro o
    cases o <;> with_unfolding_all rfl
  · intro s h
    unfold Operators.from_str
    simp only [operatorTags, List.mem_cons, List.not_mem_nil, or_false] at h
    rcases h with h | h | h | h | h | h | h | h | h | h | h | h | h <;>
      rw [h] <;> with_unfolding_all rfl
  · intro s h
    unfold Operators.from_str
    simp only [operatorTags, List.mem_cons, List.not_mem_nil, or_false,
      not_or] at h
    split
    all_goals first
      | rfl
      | (rename_i heq; exact absurd heq (by tauto))

/-- Witness for C9: parsing a mixed-case tag succeeds and parsing a
non-tag string fails with the diagnostic error. -/
theorem operators_from_str_round_trip_witness :
    (Operators.from_str "rOoT").isOk = true ∧
    Operators.from_str "xyz" = Except.error ("Invalid operator: " ++ "xyz") :=
  ⟨operators_from_str_round_trip.2.2.1 "rOoT" (by
      have h : "rOoT".toUpper = "ROOT" := by with_unfolding_all rfl
      rw [h]; simp [operatorTags]),
   operators_from_str_round_trip.2.2.2 "xyz" (by
      have h : "xyz".toUpper = "XYZ" := by with_unfolding_all rfl
      rw [h]; decide)⟩

/-- Claim C10: the conversion from `ParsingNode` to `Node` preserves the
payload and fixes node types: a parsed constant becomes `Node::Constant` with
the same value and node type Real; a parsed feature code becomes
`Node::Feature` carrying that code with node type Any and zeroed placeholder
fields; a parsed operator keeps its tag. -/
theorem node_from_parsing_node_spec :
    (∀ v : ℚ, Node.from_parsing_node (ParsingNode.Constant v) =
      Node.Constant { value := v, node_type := NodeType.Real }) ∧
    (∀ code : String, Node.from_parsing_node (ParsingNode.Feature code) =
      Node.Feature { id := 0, code := code, name := "",
                     node_type := NodeType.Any, sample_size := 0,
                     cohort_id := 0 }) ∧
    (∀ op : Operators, Node.from_parsing_node (ParsingNode.Operator op) =
      Node.Operator op) :=
  ⟨fun _ => rfl, fun _ => rfl, fun _ => rfl⟩

/-- Claim C6: for every request processed without error, the result status
transitions in order Queued, then Uploading, then Done. The entry starts
Queued; the registry status writes in the event trace are exactly the
Uploading write (recorded together with the local result file path,
after the GWAS TSV write) followed by the Done write (after the upload in
live mode, or directly after packaging in dry-run mode); the final status is
Done and the pipeline returns ok. -/
theorem result_status_transitions (env : WorkerEnv) (state : AppState)
    (request : WebGWASRequestId) (cohort_info : CohortData)
    (proj : Projection) (k : Int) (r0 : WebGWASResult)
    (hc : state.cohort_id_to_data.lookup request.cohort_id = some cohort_info)
    (hproj : compute_projection request.phenotype_definition cohort_info =
      Except.ok proj)
    (hnc : cohort_info.cohort.num_covar = some k)
    (higwas : env.igwas = Except.ok ())
    (hr0 : state.results.lookup request.id = some r0)
    (hmeta : env.create_metadata = Except.ok ())
    (hzip : env.create_zip = Except.ok ())
    (hrmmeta : env.remove_metadata = Except.ok ())
    (hq : r0.status = WebGWASResultStatus.Queued) :
    (state.results.lookup request.id).map (fun r => r.status)
        = some WebGWASResultStatus.Queued ∧
    (∀ url, state.settings.dry_run = false → env.upload = Except.ok url →
      env.remove_zip = Except.ok () →
      statusWrites (handle_webgwas_request env state request).2.2 =
        [Event.setUploading
          (state.root_directory ++ "/results/" ++ toString request.id ++ ".tsv"),
         Event.setDone (some url)] ∧
      ((handle_webgwas_request env state request).2.1.results.lookup
          request.id).map (fun r => r.status)
        = some WebGWASResultStatus.Done ∧
      (handle_webgwas_request env state request).1 = Except.ok ()) ∧
    (state.settings.dry_run = true →
      statusWrites (handle_webgwas_request env state request).2.2 =
        [Event.setUploading
          (state.root_directory ++ "/results/" ++ toString request.id ++ ".tsv"),
         Event.setDone none] ∧
      ((handle_webgwas_request env state request).2.1.results.lookup
          request.id).map (fun r => r.status)
        = some WebGWASResultStatus.Done ∧
      (handle_webgwas_request env state request).1 = Except.ok ()) := by
  refine ⟨by simp [hr0, hq], ?_, ?_⟩
  · intro url hdry hupload hrmzip
    obtain ⟨h1, h2, h3⟩ := handle_success_eq env state request cohort_info
      proj k url r0 hc hproj hnc higwas hr0 hmeta hzip hrmmeta hdry hupload
      hrmzip
    refine ⟨?_, ?_, h1⟩
    · rw [h2]
      rfl
    · rw [h3]
      rfl
  · intro hdry
    obtain ⟨h1, h2, h3⟩ := handle_dryrun_eq env state request cohort_info
      proj k r0 hc hproj hnc higwas hr0 hmeta hzip hrmmeta hdry
    refine ⟨?_, ?_, h1⟩
    · rw [h2]
      rfl
    · rw [h3]
      rfl

/-- Witness for C6: on the sample state the status writes are exactly
Uploading then Done and the final status is Done. -/
theorem result_status_transitions_witness :
    statusWrites (handle_webgwas_request envAllOk stateTest requestA).2.2 =
      [Event.setUploading "/data/results/7.tsv",
       Event.setDone (some "https://example.com/result")] ∧
    ((handle_webgwas_request envAllOk stateTest requestA).2.1.results.lookup
        requestA.id).map (fun r => r.status)
      = some WebGWASResultStatus.Done := by
  have h := result_status_transitions envAllOk stateTest requestA cohortTest
    { feature_id := ["A", "B"], feature_coefficient := [1, 0] } 0 r0Test
    (by with_unfolding_all rfl) (by with_unfolding_all rfl)
    (by with_unfolding_all rfl) (by with_unfolding_all rfl)
    (by with_unfolding_all rfl) (by with_unfolding_all rfl)
    (by with_unfolding_all rfl) (by with_unfolding_all rfl)
    (by with_unfolding_all rfl)
  have h2 := h.2.1 "https://example.com/result" (by with_unfolding_all rfl)
    (by with_unfolding_all rfl) (by with_unfolding_all rfl)
  refine ⟨?_, h2.2.1⟩
  rw [h2.1]
  with_unfolding_all rfl

/-- Claim C7: for every request processed with dry_run set to true, no
object-storage upload or presigned-URL minting occurs (no such event is in
the trace), the result URL field remains unset, and the status still
reaches Done. -/
theorem dry_run_no_upload (env : WorkerEnv) (state : AppState)
    (request : WebGWASRequestId) (cohort_info : CohortData)
    (proj : Projection) (k : Int) (r0 : WebGWASResult)
    (hc : state.cohort_id_to_data.lookup request.cohort_id = some cohort_info)
    (hproj : compute_projection request.phenotype_definition cohort_info =
      Except.ok proj)
    (hnc : cohort_info.cohort.num_covar = some k)
    (higwas : env.igwas = Except.ok ())
    (hr0 : state.results.lookup request.id = some r0)
    (hmeta : env.create_metadata = Except.ok ())
    (hzip : env.create_zip = Except.ok ())
    (hrmmeta : env.remove_metadata = Except.ok ())
    (hdry : state.settings.dry_run = true) :
    (handle_webgwas_request env state request).1 = Except.ok () ∧
    (∀ p q, Event.uploadFile p q ∉
      (handle_webgwas_request env state request).2.2) ∧
    (∀ q, Event.presign q ∉ (handle_webgwas_request env state request).2.2) ∧
    ((handle_webgwas_request env state request).2.1.results.lookup
        request.id).map (fun r => r.url) = some none ∧
    ((handle_webgwas_request env state request).2.1.results.lookup
        request.id).map (fun r => r.status)
      = some WebGWASResultStatus.Done := by
  obtain ⟨h1, h2, h3⟩ := handle_dryrun_eq env state request cohort_info
    proj k r0 hc hproj hnc higwas hr0 hmeta hzip hrmmeta hdry
  refine ⟨h1, ?_, ?_, ?_, ?_⟩
  · intro p q
    rw [h2]
    simp
  · intro q
    rw [h2]
    simp
  · rw [h3]
    rfl
  · rw [h3]
    rfl

/-- Witness for C7: on the dry-run sample state the pipeline succeeds with
no upload event, URL none and status Done. -/
theorem dry_run_no_upload_witness :
    (handle_webgwas_request envAllOk stateTestDry requestA).1 = Except.ok () ∧
    Event.uploadFile "/data/results/7.zip" "res/7.zip" ∉
      (handle_webgwas_request envAllOk stateTestDry requestA).2.2 ∧
    ((handle_webgwas_request envAllOk stateTestDry requestA).2.1.results.lookup
        requestA.id).map (fun r => r.url) = some none ∧
    ((handle_webgwas_request envAllOk stateTestDry requestA).2.1.results.lookup
        requestA.id).map (fun r => r.status)
      = some WebGWASResultStatus.Done := by
  have h := dry_run_no_upload envAllOk stateTestDry requestA cohortTest
    { feature_id := ["A", "B"], feature_coefficient := [1, 0] } 0 r0Test
    (by with_unfolding_all rfl) (by with_unfolding_all rfl)
    (by with_unfolding_all rfl) (by with_unfolding_all rfl)
    (by with_unfolding_all rfl) (by with_unfolding_all rfl)
    (by with_unfolding_all rfl) (by with_unfolding_all rfl)
    (by with_unfolding_all rfl)
  exact ⟨h.1, h.2.1 _ _, h.2.2.2.1, h.2.2.2.2⟩

/-- Claim C4 (amended): after a successful non-dry-run upload the pipeline
deletes the local metadata text file and the local zip archive, but it does
not delete the local results TSV file, and the result record's local
artifact path remains set to the TSV path (it is never cleared). -/
theorem packager_cleanup (env : WorkerEnv) (state : AppState)
    (request : WebGWASRequestId) (cohort_info : CohortData)
    (proj : Projection) (k : Int) (url : String) (r0 : WebGWASResult)
    (hc : state.cohort_id_to_data.lookup request.cohort_id = some cohort_info)
    (hproj : compute_projection request.phenotype_definition cohort_info =
      Except.ok proj)
    (hnc : cohort_info.cohort.num_covar = some k)
    (higwas : env.igwas = Except.ok ())
    (hr0 : state.results.lookup request.id = some r0)
    (hmeta : env.create_metadata = Except.ok ())
    (hzip : env.create_zip = Except.ok ())
    (hrmmeta : env.remove_metadata = Except.ok ())
    (hdry : state.settings.dry_run = false)
    (hupload : env.upload = Except.ok url)
    (hrmzip : env.remove_zip = Except.ok ()) :
    Event.removeFile
        (state.root_directory ++ "/results/" ++ toString request.id ++ ".txt")
      ∈ (handle_webgwas_request env state request).2.2 ∧
    Event.removeFile (zip_path_of
        (state.root_directory ++ "/results/" ++ toString request.id ++ ".tsv"))
      ∈ (handle_webgwas_request env state request).2.2 ∧
    Event.removeFile
        (state.root_directory ++ "/results/" ++ toString request.id ++ ".tsv")
      ∉ (handle_webgwas_request env state request).2.2 ∧
    ((handle_webgwas_request env state request).2.1.results.lookup
        request.id).map (fun r => r.local_result_file)
      = some (some
          (state.root_directory ++ "/results/" ++ toString request.id ++ ".tsv")) := by
  obtain ⟨_, h2, h3⟩ := handle_success_eq env state request cohort_info
    proj k url r0 hc hproj hnc higwas hr0 hmeta hzip hrmmeta hdry hupload
    hrmzip
  refine ⟨?_, ?_, ?_, ?_⟩
  · rw [h2]
    simp
  · rw [h2]
    simp
  · rw [h2]
    simp [zip_path_of, tsv_ne_txt, tsv_ne_zip]
  · rw [h3]
    rfl

/-- Counterexample to C4 as stated: on the sample state the pipeline
completes successfully, yet no removal of the local results TSV occurs and
the result's local artifact path is still set after the upload. -/
theorem packager_cleanup_counterexample :
    (handle_webgwas_request envAllOk stateTest requestA).1 = Except.ok () ∧
    Event.removeFile "/data/results/7.tsv" ∉
      (handle_webgwas_request envAllOk stateTest requestA).2.2 ∧
    ((handle_webgwas_request envAllOk stateTest requestA).2.1.results.lookup
        requestA.id).map (fun r => r.local_result_file)
      = some (some "/data/results/7.tsv") := by
  have ht : (handle_webgwas_request envAllOk stateTest requestA).2.2 =
      [Event.igwasWrite "/data/results/7.tsv",
       Event.setUploading "/data/results/7.tsv",
       Event.createMetadata "/data/results/7.txt",
       Event.createZip "/data/results/7.zip",
       Event.removeFile "/data/results/7.txt",
       Event.uploadFile "/data/results/7.zip" "res/7.zip",
       Event.presign "res/7.zip",
       Event.removeFile "/data/results/7.zip",
       Event.setDone (some "https://example.com/result")] := by
    with_unfolding_all rfl
  refine ⟨by with_unfolding_all rfl, ?_, by with_unfolding_all rfl⟩
  rw [ht]
  decide

/-- Witness for the amended C4 on the sample state: the metadata file and
zip removals occur, the TSV removal does not, and the local path stays
set. -/
theorem packager_cleanup_witness :
    Event.removeFile "/data/results/7.txt" ∈
      (handle_webgwas_request envAllOk stateTest requestA).2.2 ∧
    Event.removeFile "/data/results/7.zip" ∈
      (handle_webgwas_request envAllOk stateTest requestA).2.2 ∧
    Event.removeFile "/data/results/7.tsv" ∉
      (handle_webgwas_request envAllOk stateTest requestA).2.2 ∧
    ((handle_webgwas_request envAllOk stateTest requestA).2.1.results.lookup
        requestA.id).map (fun r => r.local_result_file)
      = some (some "/data/results/7.tsv") := by
  have h := packager_cleanup envAllOk stateTest requestA cohortTest
    { feature_id := ["A", "B"], feature_coefficient := [1, 0] } 0
    "https://example.com/result" r0Test
    (by with_unfolding_all rfl) (by with_unfolding_all rfl)
    (by with_unfolding_all rfl) (by with_unfolding_all rfl)
    (by with_unfolding_all rfl) (by with_unfolding_all rfl)
    (by with_unfolding_all rfl) (by with_unfolding_all rfl)
    (by with_unfolding_all rfl) (by with_unfolding_all rfl)
    (by with_unfolding_all rfl)
  refine ⟨?_, ?_, ?_, ?_⟩
  · with_unfolding_all (exact h.1)
  · with_unfolding_all (exact h.2.1)
  · with_unfolding_all (exact h.2.2.1)
  · with_unfolding_all (exact h.2.2.2)

/-- Claim C2 (amended): when projection computation fails, the request's
registry entry is set to Error with a diagnostic message and the error is
returned; when a later pipeline step fails (indirect GWAS, metadata file,
zip creation, metadata removal, upload, or zip removal), the error is
returned to the worker loop but the registry entry is not set to Error: it
keeps status Queued when the GWAS step fails and status Uploading when a
later step fails. The worker loop merely logs the returned error and
continues processing the remaining queue from the resulting state. -/
theorem worker_error_handling :
    (∀ (env : WorkerEnv) (state : AppState) (request : WebGWASRequestId)
        (cohort_info : CohortData) (err : String) (r0 : WebGWASResult),
      state.cohort_id_to_data.lookup request.cohort_id = some cohort_info →
      compute_projection request.phenotype_definition cohort_info =
        Except.error err →
      state.results.lookup request.id = some r0 →
      (handle_webgwas_request env state request).1 = Except.error err ∧
      (handle_webgwas_request env state request).2.1.results.lookup
          request.id =
        some { r0 with
                status := WebGWASResultStatus.Error,
                error_msg :=
                  some ("Failed to compute projection: " ++ err) }) ∧
    (∀ (env : WorkerEnv) (state : AppState) (request : WebGWASRequestId)
        (cohort_info : CohortData) (proj : Projection) (k : Int) (e : String),
      state.cohort_id_to_data.lookup request.cohort_id = some cohort_info →
      compute_projection request.phenotype_definition cohort_info =
        Except.ok proj →
      cohort_info.cohort.num_covar = some k →
      env.igwas = Except.error e →
      handle_webgwas_request env state request = (Except.error e, state, [])) ∧
    (∀ (env : WorkerEnv) (state : AppState) (request : WebGWASRequestId)
        (cohort_info : CohortData) (proj : Projection) (k : Int)
        (r0 : WebGWASResult) (e : String),
      state.cohort_id_to_data.lookup request.cohort_id = some cohort_info →
      compute_projection request.phenotype_definition cohort_info =
        Except.ok proj →
      cohort_info.cohort.num_covar = some k →
      env.igwas = Except.ok () →
      state.results.lookup request.id = some r0 →
      env.create_metadata = Except.error e →
      (handle_webgwas_request env state request).1 = Except.error e ∧
      (handle_webgwas_request env state request).2.1.results.lookup
          request.id =
        some { r0 with
                status := WebGWASResultStatus.Uploading,
                local_result_file := some
                  (state.root_directory ++ "/results/" ++
                    toString request.id ++ ".tsv") }) ∧
    (∀ (env : WorkerEnv) (state : AppState) (request : WebGWASRequestId)
        (cohort_info : CohortData) (proj : Projection) (k : Int)
        (r0 : WebGWASResult) (e : String),
      state.cohort_id_to_data.lookup request.cohort_id = some cohort_info →
      compute_projection request.phenotype_definition cohort_info =
        Except.ok proj →
      cohort_info.cohort.num_covar = some k →
      env.igwas = Except.ok () →
      state.results.lookup request.id = some r0 →
      env.create_metadata = Except.ok () →
      env.create_zip = Except.error e →
      (handle_webgwas_request env state request).1 = Except.error e ∧
      (handle_webgwas_request env state request).2.1.results.lookup
          request.id =
        some { r0 with
                status := WebGWASResultStatus.Uploading,
                local_result_file := some
                  (state.root_directory ++ "/results/" ++
                    toString request.id ++ ".tsv") }) ∧
    (∀ (env : WorkerEnv) (state : AppState) (request : WebGWASRequestId)
        (cohort_info : CohortData) (proj : Projection) (k : Int)
        (r0 : WebGWASResult) (e : String),
      state.cohort_id_to_data.lookup request.cohort_id = some cohort_info →
      compute_projection request.phenotype_definition cohort_info =
        Except.ok proj →
      cohort_info.cohort.num_covar = some k →
      env.igwas = Except.ok () →
      state.results.lookup request.id = some r0 →
      env.create_metadata = Except.ok () →
      env.create_zip = Except.ok () →
      env.remove_metadata = Except.error e →
      (handle_webgwas_request env state request).1 = Except.error e ∧
      (handle_webgwas_request env state request).2.1.results.lookup
          request.id =
        some { r0 with
                status := WebGWASResultStatus.Uploading,
                local_result_file := some
                  (state.root_directory ++ "/results/" ++
                    toString request.id ++ ".tsv") }) ∧
    (∀ (env : WorkerEnv) (state : AppState) (request : WebGWASRequestId)
        (cohort_info : CohortData) (proj : Projection) (k : Int)
        (r0 : WebGWASResult) (e : String),
      state.cohort_id_to_data.lookup request.cohort_id = some cohort_info →
      compute_projection request.phenotype_definition cohort_info =
        Except.ok proj →
      cohort_info.cohort.num_covar = some k →
      env.igwas = Except.ok () →
      state.results.lookup request.id = some r0 →
      env.create_metadata = Except.ok () →
      env.create_zip = Except.ok () →
      env.remove_metadata = Except.ok () →
      state.settings.dry_run = false →
      env.upload = Except.error e →
      (handle_webgwas_request env state request).1 = Except.error e ∧
      (handle_webgwas_request env state request).2.1.results.lookup
          request.id =
        some { r0 with
                status := WebGWASResultStatus.Uploading,
                local_result_file := some
                  (state.root_directory ++ "/results/" ++
                    toString request.id ++ ".tsv") }) ∧
    (∀ (env : WorkerEnv) (state : AppState) (request : WebGWASRequestId)
        (cohort_info : CohortData) (proj : Projection) (k : Int)
        (r0 : WebGWASResult) (url e : String),
      state.cohort_id_to_data.lookup request.cohort_id = some cohort_info →
      compute_projection request.phenotype_definition cohort_info =
        Except.ok proj →
      cohort_info.cohort.num_covar = some k →
      env.igwas = Except.ok () →
      state.results.lookup request.id = some r0 →
      env.create_metadata = Except.ok () →
      env.create_zip = Except.ok () →
      env.remove_metadata = Except.ok () →
      state.settings.dry_run = false →
      env.upload = Except.ok url →
      env.remove_zip = Except.error e →
      (handle_webgwas_request env state request).1 = Except.error e ∧
      (handle_webgwas_request env state request).2.1.results.lookup
          request.id =
        some { r0 with
                status := WebGWASResultStatus.Uploading,
                local_result_file := some
                  (state.root_directory ++ "/results/" ++
                    toString request.id ++ ".tsv") }) ∧
    (∀ (env : WorkerEnv) (request : WebGWASRequestId)
        (items : List (WorkerEnv × WebGWASRequestId)) (st : AppState),
      worker_process ((env, request) :: items) st =
        worker_process items (worker_step env st request)) := by
  refine ⟨?_, ?_, ?_, ?_, ?_, ?_, ?_, ?_⟩
  · intro env state request cohort_info err r0 hc hproj hr0
    obtain ⟨h1, _, h3⟩ :=
      handle_proj_error_eq env state request cohort_info err r0 hc hproj hr0
    exact ⟨h1, h3⟩
  · intro env state request cohort_info proj k e hc hproj hnc higwas
    exact handle_igwas_error_eq env state request cohort_info proj k e
      hc hproj hnc higwas
  · intro env state request cohort_info proj k r0 e hc hproj hnc higwas hr0
      hmeta
    exact handle_meta_error_eq env state request cohort_info proj k r0 e
      hc hproj hnc higwas hr0 hmeta
  · intro env state request cohort_info proj k r0 e hc hproj hnc higwas hr0
      hmeta hzip
    exact handle_zip_error_eq env state request cohort_info proj k r0 e
      hc hproj hnc higwas hr0 hmeta hzip
  · intro env state request cohort_info proj k r0 e hc hproj hnc higwas hr0
      hmeta hzip hrmmeta
    exact handle_rmmeta_error_eq env state request cohort_info proj k r0 e
      hc hproj hnc higwas hr0 hmeta hzip hrmmeta
  · intro env state request cohort_info proj k r0 e hc hproj hnc higwas hr0
      hmeta hzip hrmmeta hdry hupload
    exact handle_upload_error_eq env state request cohort_info proj k r0 e
      hc hproj hnc higwas hr0 hmeta hzip hrmmeta hdry hupload
  · intro env state request cohort_info proj k r0 url e hc hproj hnc higwas
      hr0 hmeta hzip hrmmeta hdry hupload hrmzip
    exact handle_rmzip_error_eq env state request cohort_info proj k r0 url e
      hc hproj hnc higwas hr0 hmeta hzip hrmmeta hdry hupload hrmzip
  · intro env request items st
    rfl

/-- Counterexample to C2 as stated: on the sample state the indirect-GWAS
step fails, the pipeline returns the error, but the registry entry remains
Queued, which is not Error. -/
theorem worker_error_handling_counterexample :
    (handle_webgwas_request envIgwasFail stateTest requestA).1 =
      Except.error "igwas failed" ∧
    ((handle_webgwas_request envIgwasFail stateTest requestA).2.1.results.lookup
        requestA.id).map (fun r => r.status)
      = some WebGWASResultStatus.Queued ∧
    WebGWASResultStatus.Queued ≠ WebGWASResultStatus.Error := by
  refine ⟨by with_unfolding_all rfl, by with_unfolding_all rfl, by decide⟩

/-- Witness for the amended C2: a projection failure marks the sample entry
Error, while a GWAS failure leaves the state untouched. -/
theorem worker_error_handling_witness :
    ((handle_webgwas_request envAllOk stateTest requestOp).2.1.results.lookup
        requestOp.id).map (fun r => r.status)
      = some WebGWASResultStatus.Error ∧
    handle_webgwas_request envIgwasFail stateTest requestA =
      (Except.error "igwas failed", stateTest, []) := by
  constructor
  · have h := worker_error_handling.1 envAllOk stateTest requestOp cohortTest
      "Operator add is not supported" r0Test (by with_unfolding_all rfl)
      (by with_unfolding_all rfl) (by with_unfolding_all rfl)
    rw [h.2]
    with_unfolding_all rfl
  · exact worker_error_handling.2.1 envIgwasFail stateTest requestA cohortTest
      { feature_id := ["A", "B"], feature_coefficient := [1, 0] } 0
      "igwas failed" (by with_unfolding_all rfl) (by with_unfolding_all rfl)
      (by with_unfolding_all rfl) (by with_unfolding_all rfl)

/-- Claim C5: every archive produced by the result packager contains
exactly two entries at the fixed names results.tsv and metadata.txt, in that
order, each written with the Deflated compression method and unix
permissions 0644, with entry contents byte-identical to the source TSV and
metadata files. -/
theorem create_output_zip_entries (fs : String → Option (List Nat))
    (output_path metadata_path : String) (tsv meta : List Nat)
    (htsv : fs output_path = some tsv)
    (hmeta : fs metadata_path = some meta) :
    create_output_zip fs output_path metadata_path =
      Except.ok (zip_path_of output_path,
        { entries :=
          [{ name := "results.tsv", method := CompressionMethod.Deflated,
             unix_permissions := 0o644, data := tsv },
           { name := "metadata.txt", method := CompressionMethod.Deflated,
             unix_permissions := 0o644, data := meta }] }) := by
  unfold create_output_zip add_file_to_zip
  simp [htsv, hmeta]

/-- Witness for C5: packaging the sample TSV and metadata files yields the
two-entry archive with their exact bytes. -/
theorem create_output_zip_entries_witness :
    create_output_zip fsTest "/data/results/7.tsv" "/data/results/7.txt" =
      Except.ok ("/data/results/7.zip",
        { entries :=
          [{ name := "results.tsv", method := CompressionMethod.Deflated,
             unix_permissions := 0o644, data := [118, 97, 114] },
           { name := "metadata.txt", method := CompressionMethod.Deflated,
             unix_permissions := 0o644, data := [105, 100] }] }) := by
  have h := create_output_zip_entries fsTest "/data/results/7.tsv"
    "/data/results/7.txt" [118, 97, 114] [105, 100]
    (by with_unfolding_all rfl) (by with_unfolding_all rfl)
  rw [h]
  with_unfolding_all rfl

end WebGWAS

